import Mathlib

/-!
Verification development for the `3700ftp.js` FTP client.

The JavaScript source is shallowly embedded: pure string manipulation
(response parsing, PASV extraction, URL path extraction) becomes Lean
functions on `String` and `List Char`; the callback-chained socket code
becomes explicit state machines driven by lists of environment events,
producing lists of observable actions (socket writes, filesystem calls,
console output, callback invocations).
-/

/-- A JavaScript value as it appears in the first argument of the
Node-style callbacks of the source: `null`, an `Error` object (carrying
its message), or a string (the source passes paths and URLs here). -/
inductive JsValue where
  | jsNull
  | jsErr (msg : String)
  | jsStr (s : String)
deriving Repr, DecidableEq

/-- JavaScript truthiness restricted to the values above: `null` is
falsy, `Error` objects are truthy, a string is truthy when nonempty. -/
def JsValue.truthy : JsValue → Bool
  | .jsNull => false
  | .jsErr _ => true
  | .jsStr s => !s.isEmpty

/-- Models `String.prototype.startsWith` from JavaScript. -/
def jsStartsWith (s pre : String) : Bool :=
  pre.data.isPrefixOf s.data

/-- Models the JavaScript regular expression `/\(([^)]+)\)/` applied via
`String.prototype.match`: returns the content of the first capture group
of the leftmost match, i.e. the first nonempty run of characters between
a left parenthesis and a right parenthesis; `none` when the regex does
not match (in the source, `match` then returns `null` and the subscript
`[1]` throws a `TypeError`). -/
def matchParen : List Char → Option (List Char)
  | [] => none
  | c :: rest =>
    if c = '(' then
      if (rest.takeWhile (fun ch => ch != ')')).length ≠ 0 ∧
          (rest.takeWhile (fun ch => ch != ')')).length < rest.length then
        some (rest.takeWhile (fun ch => ch != ')'))
      else matchParen rest
    else matchParen rest

/-- Models `String.prototype.split(",")`: splits at every comma and
keeps empty pieces; the empty string splits to one empty piece. -/
def splitComma : List Char → List (List Char)
  | [] => [[]]
  | c :: rest =>
    if c = ',' then [] :: splitComma rest
    else
      match splitComma rest with
      | [] => [[c]]
      | p :: ps => (c :: p) :: ps

/-- A decimal digit character. -/
def isDigitChar (c : Char) : Bool :=
  48 ≤ c.toNat && c.toNat ≤ 57

/-- A whitespace character skipped by `parseInt` (space, tab, newline,
carriage return; the full JavaScript whitespace set is larger but these
are the ones that can occur in FTP reply text). -/
def isWsChar (c : Char) : Bool :=
  c.toNat = 32 || c.toNat = 9 || c.toNat = 10 || c.toNat = 13

/-- Value of a decimal digit string. -/
def decVal (ds : List Char) : Nat :=
  ds.foldl (fun acc c => acc * 10 + (c.toNat - 48)) 0

/-- Models JavaScript `parseInt` (radix 10 inputs) on a string: skip
leading whitespace, read an optional sign, then the maximal run of
decimal digits; `none` models the `NaN` result when no digit is found.
(The hexadecimal `0x` form accepted by `parseInt` cannot occur in the
comma-separated fields the source applies it to.) -/
def jsParseIntList (cs0 : List Char) : Option Int :=
  let cs := cs0.dropWhile isWsChar
  let body := if cs.head? = some '-' ∨ cs.head? = some '+' then cs.tail else cs
  let d := body.takeWhile isDigitChar
  if d = [] then none
  else if cs.head? = some '-' then some (-(decVal d : Int)) else some ((decVal d : Int))

/-- `parseInt` applied to an array subscript that may be out of bounds:
`parseInt(undefined)` is `NaN`, modelled as `none`. -/
def jsParseInt : Option (List Char) → Option Int
  | none => none
  | some cs => jsParseIntList cs

/-- Wrap an integer into the signed 32-bit range, as JavaScript
`ToInt32` does for the operands and result of `<<`. -/
def toInt32 (x : Int) : Int :=
  (x + 2147483648) % 4294967296 - 2147483648

/-- Models the JavaScript expression `x << 8` where `x` is the result of
`parseInt`: `ToInt32` maps `NaN` to `0`, the shift multiplies by 256 and
wraps to signed 32 bits. -/
def jsShl8 (x : Option Int) : Int :=
  toInt32 (toInt32 (x.getD 0) * 256)

/-- Outcome of `openDataConnection` on one control-channel data chunk:
the success callback with the extracted `ip` and `port` (`port = none`
models `NaN`), the failure callback `new Error("Failed to enter passive
mode")`, or an uncaught `TypeError` (the source subscripts the `null`
result of a failed regex match). -/
inductive PasvResult where
  | ok (ip : String) (port : Option Int)
  | errPassive
  | jsTypeError
deriving Repr, DecidableEq

/-- Embedding of `openDataConnection` from `3700ftp.js` (lines 121-136):
the handler for the single control-channel data chunk received after
writing `PASV`.  If the chunk starts with `"227"` the first parenthesized
group is split at commas; the first four fields joined with `"."` give the
ip, and the port is `(parseInt(f[4]) << 8) + parseInt(f[5])`.  Otherwise
the callback receives an error. -/
def openDataConnection (response : String) : PasvResult :=
  if jsStartsWith response "227" then
    match matchParen response.data with
    | none => .jsTypeError
    | some inner =>
      let ipAndPort := splitComma inner
      let ip := String.intercalate "." ((ipAndPort.take 4).map String.mk)
      let port : Option Int :=
        match jsParseInt ipAndPort[5]? with
        | none => none
        | some p2 => some (jsShl8 (jsParseInt ipAndPort[4]?) + p2)
      .ok ip port
  else .errPassive

/-- Environment events delivered to the callback handlers of one
transfer operation: the data socket connect callback firing, a data
chunk or end (`EOF`) on the data socket, a data chunk on the control
socket, and the `finish` event of the upload pipe. -/
inductive Ev where
  | dataConnected
  | dataChunk (s : String)
  | dataEnd
  | ctrl (s : String)
  | pipeFinish
deriving Repr, DecidableEq

/-- Observable actions performed by the embedded handlers: control and
data socket operations, file stream operations, `fs.unlink`, starting
the upload pipe, console output, invoking the operation callback with a
first argument, opening a data connection, dispatching to the transfer
helpers, spawning `handleRmCommand`, and an uncaught `TypeError`. -/
inductive Act where
  | ctrlWrite (s : String)
  | ctrlEnd
  | dataEndAct
  | fsWriteAct (s : String)
  | fsEndAct
  | fsUnlink (p : String)
  | pipeStart (p : String)
  | logMsg (s : String)
  | logErr (s : String)
  | cb (v : JsValue)
  | connectData (ip : String) (port : Option Int)
  | spawnUpload (src dst : String)
  | spawnDownload (src dst : String)
  | startRm (u : String)
  | throwTypeError
deriving Repr, DecidableEq

/-- Records an invocation of the operation callback as an action; used
where the source is handed a caller-supplied callback. -/
def cbRecord : JsValue → List Act :=
  fun v => [Act.cb v]

/-- Models the `pathname` field of `parseURL` (Node `url.URL`) for
`ftp://[user[:password]@]host[:port]/path` URLs: the part of the URL
from the first slash after the scheme and authority; an ftp URL with no
such slash has pathname `/`. -/
def parseURLPath (u : String) : String :=
  let rest := u.data.drop 6
  let p := rest.dropWhile (fun c => c != '/')
  if p = [] then "/" else String.mk p

/-- Run a handler state machine over a list of environment events,
concatenating the actions each event produces. -/
def runM {σ : Type} (step : σ → Ev → σ × List Act) : σ → List Ev → σ × List Act
  | st, [] => (st, [])
  | st, e :: rest =>
    let p := step st e
    let q := runM step p.1 rest
    (q.1, p.2 ++ q.2)

/-- Handler state of `downloadFileFromFtp` after the PASV callback: has
the data socket connect callback fired, and has the single `once`
control-data handler been consumed. -/
structure DownloadState where
  connectFired : Bool
  onceUsed : Bool
deriving Repr, DecidableEq

/-- Initial download handler state. -/
def downloadInit : DownloadState := ⟨false, false⟩

/-- Embedding of the handlers registered by `downloadFileFromFtp`
(`3700ftp.js` lines 287-324) once the PASV exchange succeeded: the data
socket connect callback writes `RETR <path>`; each data chunk is written
to the local file stream; data-socket end closes the streams and invokes
the callback with the remote URL; the single control chunk read is
logged and, unless it starts with `150`, the file stream and data socket
are closed. -/
def downloadFileFromFtpStep (remoteUrl : String) (cbAct : JsValue → List Act)
    (st : DownloadState) (e : Ev) : DownloadState × List Act :=
  match e with
  | .dataConnected =>
    if st.connectFired then (st, [])
    else ({ st with connectFired := true },
      [.logMsg "Data connection established for RETR command",
       .ctrlWrite ("RETR " ++ parseURLPath remoteUrl ++ "\r\n")])
  | .dataChunk s => (st, [.fsWriteAct s])
  | .dataEnd =>
    (st, [.logMsg "File download completed.", .fsEndAct, .ctrlEnd] ++ cbAct (.jsStr remoteUrl))
  | .ctrl s =>
    if st.onceUsed then (st, [])
    else ({ st with onceUsed := true },
      .logMsg ("RETR Response: " ++ s) ::
        (if jsStartsWith s "150" then []
         else [.logErr "Failed to start file transfer.", .fsEndAct, .dataEndAct]))
  | .pipeFinish => (st, [])

/-- Handler state of `uploadFileToFtp` after the PASV callback: connect
callback fired, `once` control handler consumed, and whether the `150`
branch started piping the local file (which registers the `finish`
handler). -/
structure UploadState where
  connectFired : Bool
  onceUsed : Bool
  piping : Bool
deriving Repr, DecidableEq

/-- Initial upload handler state. -/
def uploadInit : UploadState := ⟨false, false, false⟩

/-- Embedding of the handlers registered by `uploadFileToFtp`
(`3700ftp.js` lines 349-376) once the PASV exchange succeeded: the data
socket connect callback writes `STOR <path>`; the single control chunk
read is logged and, when it starts with `150`, the local file is piped
into the data socket whose `finish` event closes the control connection
and invokes the callback with the local path; otherwise the data socket
is closed. -/
def uploadFileToFtpStep (localPath remoteUrl : String) (cbAct : JsValue → List Act)
    (st : UploadState) (e : Ev) : UploadState × List Act :=
  match e with
  | .dataConnected =>
    if st.connectFired then (st, [])
    else ({ st with connectFired := true },
      [.logMsg "Data connection established for STOR command",
       .ctrlWrite ("STOR " ++ parseURLPath remoteUrl ++ "\r\n")])
  | .ctrl s =>
    if st.onceUsed then (st, [])
    else if jsStartsWith s "150" then
      ({ st with onceUsed := true, piping := true },
       [.logMsg ("STOR Response: " ++ s), .pipeStart localPath])
    else
      ({ st with onceUsed := true },
       [.logMsg ("STOR Response: " ++ s), .logErr "Failed to start file transfer.",
        .dataEndAct])
  | .pipeFinish =>
    if st.piping then
      (st, [.logMsg "File upload completed.", .ctrlEnd] ++ cbAct (.jsStr localPath))
    else (st, [])
  | .dataChunk _ => (st, [])
  | .dataEnd => (st, [])

/-- Handler state of `handleLsCommand` after the PASV callback: connect
callback fired, and the listing text accumulated so far. -/
structure LsState where
  connectFired : Bool
  listing : String
deriving Repr, DecidableEq

/-- Initial listing handler state. -/
def lsInit : LsState := ⟨false, ""⟩

/-- Embedding of the handlers registered by `handleLsCommand`
(`3700ftp.js` lines 150-175) once the PASV exchange succeeded: the data
socket connect callback writes `LIST <path>`; data chunks accumulate
into `listingData`; data-socket end logs the listing and closes the
control connection.  No handler reads the control channel. -/
def handleLsCommandStep (ftpUrl : String) (st : LsState) (e : Ev) : LsState × List Act :=
  match e with
  | .dataConnected =>
    if st.connectFired then (st, [])
    else ({ st with connectFired := true },
      [.logMsg "Data connection established for LIST command",
       .ctrlWrite ("LIST " ++ parseURLPath ftpUrl ++ "\r\n")])
  | .dataChunk s => ({ st with listing := st.listing ++ s }, [])
  | .dataEnd => (st, [.logMsg ("Directory listing:\n" ++ st.listing), .ctrlEnd])
  | .ctrl _ => (st, [])
  | .pipeFinish => (st, [])

/-- Embedding of the control-reply handler of `handleRmCommand`
(`3700ftp.js` lines 241-260), after `DELE <path>` was written: the
single control chunk either starts with `250` (success: log and invoke
the callback with `null`) or not (log the failure and invoke the
callback with `new Error("Failed to delete file")`); the control
connection is closed in both cases.  The state records whether the
`once` handler was consumed. -/
def handleRmCommandStep (cbAct : JsValue → List Act) (used : Bool) (e : Ev) :
    Bool × List Act :=
  match e with
  | .ctrl s =>
    if used then (used, [])
    else (true,
      (if jsStartsWith s "250" then
        [Act.logMsg "File deleted successfully."] ++ cbAct .jsNull
       else
        [Act.logErr "Failed to delete file:"] ++ cbAct (.jsErr "Failed to delete file"))
      ++ [Act.ctrlEnd])
  | _ => (used, [])

/-- The immediate actions of the PASV callback inside
`downloadFileFromFtp` (`3700ftp.js` lines 279-293).  The callback is
declared `function (error, { ip, port })`: on success a data socket
connection to the extracted endpoint is initiated.  On the failure path
`openDataConnection` invokes it with a single argument, so destructuring
`{ ip, port }` from the missing second argument throws an uncaught
`TypeError` before the callback body runs -- the `if (error)` branch
(its failure log and `client.end()`) is dead code and the control
connection is not closed.  A `TypeError` thrown inside
`openDataConnection` itself (the `null` match subscript) likewise
propagates uncaught. -/
def downloadOnPasv (r : PasvResult) : List Act :=
  match r with
  | .ok ip port => [.connectData ip port]
  | .errPassive => [.throwTypeError]
  | .jsTypeError => [.throwTypeError]

/-- A remote location is one whose string starts with `ftp://`, exactly
as `handleCpCommand` and `handleMvCommand` test it. -/
def isRemote (s : String) : Bool :=
  jsStartsWith s "ftp://"

/-- Embedding of `handleCpCommand` (`3700ftp.js` lines 387-400): a local
source with a remote destination dispatches to `uploadFileToFtp`, a
remote source with a local destination dispatches to
`downloadFileFromFtp`, and any other combination only logs an error --
no connection of any kind is made. -/
def handleCpCommand (source destination : String) : List Act :=
  if !isRemote source && isRemote destination then
    [.spawnUpload source destination]
  else if isRemote source && !isRemote destination then
    [.spawnDownload source destination]
  else
    [.logErr "Copy command currently supports only local-to-remote or remote-to-local copying."]

/-- Does an action open a socket (control or data)?  The two spawn
actions stand for invocations of `uploadFileToFtp` and
`downloadFileFromFtp`, the only paths that create sockets. -/
def opensSocket : Act → Bool
  | .connectData _ _ => true
  | .spawnUpload _ _ => true
  | .spawnDownload _ _ => true
  | .startRm _ => true
  | _ => false

/-- The callback `handleMvCommand` (`3700ftp.js` lines 434-452) passes
to `uploadFileToFtp` for a local-to-remote move: a truthy first argument
is treated as an upload error and logged; otherwise the local source is
deleted with `fs.unlink`. -/
def mvUploadCallback (source : String) (v : JsValue) : List Act :=
  if v.truthy then [.logErr "Failed to upload the file:"]
  else [.logMsg "File uploaded successfully.", .fsUnlink source]

/-- The callback `handleMvCommand` (`3700ftp.js` lines 411-431) passes
to `downloadFileFromFtp` for a remote-to-local move: a truthy first
argument is treated as a download error and logged; otherwise
`handleRmCommand` is invoked on the URL rebuilt as `ftp://` plus the
path of the source (note: host and credentials are dropped). -/
def mvDownloadCallback (source : String) (v : JsValue) : List Act :=
  if v.truthy then [.logErr "Failed to download the file:"]
  else [.logMsg "File downloaded successfully.",
        .startRm ("ftp://" ++ parseURLPath source)]

/-- `handleMvCommand` moving local-to-remote: `uploadFileToFtp` run with
the move callback, over a list of environment events. -/
def handleMvCommandLocalRemote (source destination : String) (evs : List Ev) :
    UploadState × List Act :=
  runM (uploadFileToFtpStep source destination (mvUploadCallback source)) uploadInit evs

/-- `handleMvCommand` moving remote-to-local: `downloadFileFromFtp` run
with the move callback, over a list of environment events. -/
def handleMvCommandRemoteLocal (source destination : String) (evs : List Ev) :
    DownloadState × List Act :=
  runM (downloadFileFromFtpStep source (mvDownloadCallback source)) downloadInit evs

/-- State of the persistent control-channel data handler installed by
`loginToFtp`: the number of chunks seen, the commands written so far,
and the sequence of callback invocations (each `none` models
`callback(null)`, each `some msg` models `callback(new Error(msg))`). -/
structure LoginState where
  responseCount : Nat
  writes : List String
  cbs : List (Option String)
deriving Repr, DecidableEq

/-- Initial login handler state. -/
def loginInit : LoginState := ⟨0, [], []⟩

/-- Embedding of the `data` handler of `loginToFtp` (`3700ftp.js` lines
55-72) on one control chunk: the first chunk triggers `USER <user>`
regardless of its content; afterwards a chunk starting with `331` sends
`PASS <password>`, one starting with `230` invokes the callback with
`null`, one starting with `530` invokes it with an `Error`, and any
other chunk is ignored.  (The `console.log` of each raw chunk is
omitted.) -/
def loginToFtpStep (user password : String) (st : LoginState) (chunk : String) :
    LoginState :=
  let rc := st.responseCount + 1
  if rc = 1 then
    { st with responseCount := rc, writes := st.writes ++ ["USER " ++ user ++ "\r\n"] }
  else if jsStartsWith chunk "331" then
    { st with responseCount := rc, writes := st.writes ++ ["PASS " ++ password ++ "\r\n"] }
  else if jsStartsWith chunk "230" then
    { st with responseCount := rc, cbs := st.cbs ++ [none] }
  else if jsStartsWith chunk "530" then
    { st with responseCount := rc, cbs := st.cbs ++ [some "Login authentication failed"] }
  else { st with responseCount := rc }

/-- `loginToFtp` run over a list of control chunks. -/
def loginToFtp (user password : String) (chunks : List String) : LoginState :=
  chunks.foldl (loginToFtpStep user password) loginInit

/-! Helper lemmas about the embedded JavaScript string primitives. -/

theorem takeWhile_all (p : Char → Bool) (xs : List Char)
    (hxs : ∀ c ∈ xs, p c = true) : xs.takeWhile p = xs := by
  induction xs with
  | nil => rfl
  | cons a tl ih =>
    simp [List.takeWhile_cons, hxs a (by simp),
      ih (fun c hcm => hxs c (by simp [hcm]))]

theorem takeWhile_all_append (p : Char → Bool) (xs : List Char) (y : Char) (ys : List Char)
    (hxs : ∀ c ∈ xs, p c = true) (hy : p y = false) :
    (xs ++ y :: ys).takeWhile p = xs := by
  induction xs with
  | nil => simp [List.takeWhile_cons, hy]
  | cons a tl ih =>
    simp [List.takeWhile_cons, hxs a (by simp),
      ih (fun c hcm => hxs c (by simp [hcm]))]

theorem isPrefixOf_append_self (l t : List Char) : l.isPrefixOf (l ++ t) = true := by
  induction l with
  | nil => simp [List.isPrefixOf]
  | cons a tl ih => simp [List.isPrefixOf, ih]

theorem matchParen_spec (pre inner post : List Char)
    (hpre : '(' ∉ pre) (hne : inner ≠ []) (hinner : ')' ∉ inner) :
    matchParen (pre ++ '(' :: (inner ++ ')' :: post)) = some inner := by
  induction pre with
  | nil =>
    have htw : (inner ++ ')' :: post).takeWhile (fun ch => ch != ')') = inner := by
      refine takeWhile_all_append _ inner ')' post (fun c hcm => ?_) (by simp)
      simp only [bne_iff_ne, ne_eq]
      intro h
      exact hinner (h ▸ hcm)
    simp only [List.nil_append, matchParen, if_pos rfl, htw]
    have h1 : inner.length ≠ 0 := by simpa [List.length_eq_zero] using hne
    have h2 : inner.length < (inner ++ ')' :: post).length := by
      simp only [List.length_append, List.length_cons]
      omega
    simp [h1, h2]
  | cons a tl ih =>
    have ha : ¬(a = '(') := by
      intro h
      exact hpre (by simp [h])
    simp only [List.cons_append, matchParen, if_neg ha]
    exact ih (fun h => hpre (by simp [h]))

theorem splitComma_no_comma (xs : List Char) (h : ∀ c ∈ xs, c ≠ ',') :
    splitComma xs = [xs] := by
  induction xs with
  | nil => rfl
  | cons a tl ih =>
    have ha : ¬(a = ',') := h a (by simp)
    rw [splitComma, if_neg ha, ih (fun c hcm => h c (by simp [hcm]))]

theorem splitComma_append (xs ys : List Char) (h : ∀ c ∈ xs, c ≠ ',') :
    splitComma (xs ++ ',' :: ys) = xs :: splitComma ys := by
  induction xs with
  | nil => simp [splitComma]
  | cons a tl ih =>
    have ha : ¬(a = ',') := h a (by simp)
    rw [List.cons_append, splitComma, if_neg ha,
      ih (fun c hcm => h c (by simp [hcm]))]

theorem digit_not_ws {c : Char} (h : isDigitChar c = true) : isWsChar c = false := by
  simp only [isDigitChar, Bool.and_eq_true, decide_eq_true_eq] at h
  simp only [isWsChar, Bool.or_eq_false_iff, decide_eq_false_iff_not]
  omega

theorem jsParseIntList_digits (ds : List Char) (hne : ds ≠ [])
    (hd : ∀ c ∈ ds, isDigitChar c = true) :
    jsParseIntList ds = some ((decVal ds : Int)) := by
  obtain ⟨a, tl, rfl⟩ := List.exists_cons_of_ne_nil hne
  have ha := hd a (by simp)
  have hadig : 48 ≤ a.toNat ∧ a.toNat ≤ 57 := by
    simpa [isDigitChar, Bool.and_eq_true, decide_eq_true_eq] using ha
  have hdrop : (a :: tl).dropWhile isWsChar = a :: tl := by
    simp [List.dropWhile_cons, digit_not_ws ha]
  have haminus : ¬(a = '-') := by
    intro h
    rw [h] at hadig
    exact absurd hadig (by decide)
  have haplus : ¬(a = '+') := by
    intro h
    rw [h] at hadig
    exact absurd hadig (by decide)
  have htake : (a :: tl).takeWhile isDigitChar = a :: tl := takeWhile_all _ _ hd
  have hcond : ¬((a :: tl).head? = some '-' ∨ (a :: tl).head? = some '+') := by
    simp [haminus, haplus]
  simp only [jsParseIntList, hdrop, if_neg hcond, htake]
  rw [if_neg (by simp), if_neg (by simp [haminus])]

theorem toInt32_eq_self {x : Int} (h0 : 0 ≤ x) (h : x < 2147483648) : toInt32 x = x := by
  unfold toInt32
  rw [Int.emod_eq_of_lt (by omega) (by omega)]
  omega

theorem digit_ne_comma {c : Char} (h : isDigitChar c = true) : c ≠ ',' := by
  intro hc
  rw [hc] at h
  exact absurd h (by decide)

theorem not_mem_digits {x : Char} (hx : isDigitChar x = false) (l : List Char)
    (hl : ∀ ch ∈ l, isDigitChar ch = true) : x ∉ l := by
  intro hmem
  rw [hl x hmem] at hx
  exact absurd hx (by decide)

/-- Claim C6: for every `227` reply whose message carries six
comma-separated integers in parentheses `(a,b,c,d,p1,p2)` (first
parenthesized group of the chunk, digits only, `p1` small enough that
the 32-bit shift cannot wrap), `openDataConnection` derives the ip as
the four first fields joined with `"."` and the port as
`p1 * 256 + p2`. -/
theorem pasv_derives_ip_and_port
    (response : String) (mid a b c d p1 p2 post : List Char)
    (hresp : response.data =
      ("227".data ++ mid) ++ '(' ::
        ((a ++ ',' :: (b ++ ',' :: (c ++ ',' :: (d ++ ',' :: (p1 ++ ',' :: p2))))) ++
          ')' :: post))
    (hmid : '(' ∉ mid)
    (hna : a ≠ []) (hnb : b ≠ []) (hnc : c ≠ []) (hnd : d ≠ [])
    (hnp1 : p1 ≠ []) (hnp2 : p2 ≠ [])
    (hda : ∀ ch ∈ a, isDigitChar ch = true) (hdb : ∀ ch ∈ b, isDigitChar ch = true)
    (hdc : ∀ ch ∈ c, isDigitChar ch = true) (hdd : ∀ ch ∈ d, isDigitChar ch = true)
    (hdp1 : ∀ ch ∈ p1, isDigitChar ch = true) (hdp2 : ∀ ch ∈ p2, isDigitChar ch = true)
    (hsmall : decVal p1 < 8388608) :
    openDataConnection response =
      PasvResult.ok
        (String.intercalate "." [String.mk a, String.mk b, String.mk c, String.mk d])
        (some ((decVal p1 : Int) * 256 + (decVal p2 : Int))) := by
  have hstart : jsStartsWith response "227" = true := by
    unfold jsStartsWith
    rw [hresp, List.append_assoc]
    exact isPrefixOf_append_self _ _
  have hinnerNe :
      (a ++ ',' :: (b ++ ',' :: (c ++ ',' :: (d ++ ',' :: (p1 ++ ',' :: p2))))) ≠ [] := by
    simp
  have hinnerNr :
      ')' ∉ (a ++ ',' :: (b ++ ',' :: (c ++ ',' :: (d ++ ',' :: (p1 ++ ',' :: p2))))) := by
    intro hmem
    rcases List.mem_append.1 hmem with h | hmem
    · exact not_mem_digits (by decide) a hda h
    rcases List.mem_cons.1 hmem with h | hmem
    · exact absurd h (by decide)
    rcases List.mem_append.1 hmem with h | hmem
    · exact not_mem_digits (by decide) b hdb h
    rcases List.mem_cons.1 hmem with h | hmem
    · exact absurd h (by decide)
    rcases List.mem_append.1 hmem with h | hmem
    · exact not_mem_digits (by decide) c hdc h
    rcases List.mem_cons.1 hmem with h | hmem
    · exact absurd h (by decide)
    rcases List.mem_append.1 hmem with h | hmem
    · exact not_mem_digits (by decide) d hdd h
    rcases List.mem_cons.1 hmem with h | hmem
    · exact absurd h (by decide)
    rcases List.mem_append.1 hmem with h | hmem
    · exact not_mem_digits (by decide) p1 hdp1 h
    rcases List.mem_cons.1 hmem with h | hmem
    · exact absurd h (by decide)
    · exact not_mem_digits (by decide) p2 hdp2 hmem
  have hmatch : matchParen response.data =
      some (a ++ ',' :: (b ++ ',' :: (c ++ ',' :: (d ++ ',' :: (p1 ++ ',' :: p2))))) := by
    rw [hresp]
    refine matchParen_spec _ _ _ ?_ hinnerNe hinnerNr
    intro hmem
    rcases List.mem_append.1 hmem with h | h
    · exact absurd h (by decide)
    · exact hmid h
  have hsplit :
      splitComma (a ++ ',' :: (b ++ ',' :: (c ++ ',' :: (d ++ ',' :: (p1 ++ ',' :: p2))))) =
        [a, b, c, d, p1, p2] := by
    rw [splitComma_append a _ (fun ch hm => digit_ne_comma (hda ch hm)),
        splitComma_append b _ (fun ch hm => digit_ne_comma (hdb ch hm)),
        splitComma_append c _ (fun ch hm => digit_ne_comma (hdc ch hm)),
        splitComma_append d _ (fun ch hm => digit_ne_comma (hdd ch hm)),
        splitComma_append p1 _ (fun ch hm => digit_ne_comma (hdp1 ch hm)),
        splitComma_no_comma p2 (fun ch hm => digit_ne_comma (hdp2 ch hm))]
  have hp1v : jsParseIntList p1 = some ((decVal p1 : Int)) :=
    jsParseIntList_digits p1 hnp1 hdp1
  have hp2v : jsParseIntList p2 = some ((decVal p2 : Int)) :=
    jsParseIntList_digits p2 hnp2 hdp2
  have hshl : jsShl8 (some ((decVal p1 : Int))) = (decVal p1 : Int) * 256 := by
    unfold jsShl8
    have h1 : toInt32 ((decVal p1 : Int)) = (decVal p1 : Int) :=
      toInt32_eq_self (by omega) (by omega)
    have h2 : toInt32 ((decVal p1 : Int) * 256) = (decVal p1 : Int) * 256 :=
      toInt32_eq_self (by omega) (by omega)
    rw [Option.getD_some, h1, h2]
  rw [openDataConnection, if_pos hstart, hmatch]
  simp only [hsplit, List.take_succ_cons, List.take_zero, List.map_cons, List.map_nil,
    List.getElem?_cons_succ, List.getElem?_cons_zero, jsParseInt, hp1v, hp2v, hshl]

/-- Witness for C6: the scenario reply `227 Entering Passive Mode
(10,0,0,1,4,1)` yields endpoint `10.0.0.1:1025`. -/
theorem pasv_derives_ip_and_port_witness :
    openDataConnection "227 Entering Passive Mode (10,0,0,1,4,1)" =
      PasvResult.ok "10.0.0.1" (some 1025) := by
  have h := pasv_derives_ip_and_port "227 Entering Passive Mode (10,0,0,1,4,1)"
    " Entering Passive Mode ".data ['1', '0'] ['0'] ['0'] ['1'] ['4'] ['1'] []
    (by decide) (by decide) (by decide) (by decide) (by decide) (by decide)
    (by decide) (by decide) (by decide) (by decide) (by decide) (by decide)
    (by decide) (by decide) (by decide)
  exact h.trans (by decide)

/-- Counterexample for C5: a multi-line `227` reply is NOT assembled
into one logical reply.  The continuation line `227-Entering passive
mode, hold on` (4th character `-`) delivered as its own data chunk is
interpreted immediately: it starts with `227`, the parenthesis regex
finds no match, and subscripting the `null` match result throws a
`TypeError` -- instead of waiting for the closing line and deriving the
endpoint from it, as the claim requires. -/
theorem multiline_reply_counterexample :
    openDataConnection "227-Entering passive mode, hold on\r\n" =
      PasvResult.jsTypeError := by decide

/-- Amended C5: control replies are interpreted per received data chunk
with no multi-line assembly.  The outcome of the PASV exchange is fully
determined by whether the chunk starts with `227` and by the first
parenthesized group anywhere in the chunk (which in a multi-line reply
may come from a continuation line); the closing line of a multi-line
reply plays no distinguished role. -/
theorem pasv_outcome_from_chunk_head_and_first_group
    (r1 r2 : String)
    (hhead : jsStartsWith r1 "227" = jsStartsWith r2 "227")
    (hgroup : matchParen r1.data = matchParen r2.data) :
    openDataConnection r1 = openDataConnection r2 := by
  unfold openDataConnection
  rw [hhead, hgroup]

/-- Witness for the amended C5: two chunks agreeing on head and first
parenthesized group get the same outcome, however their remaining text
differs. -/
theorem pasv_outcome_from_chunk_head_witness :
    (jsStartsWith "227 ok (1,2,3,4,5,6)" "227" = jsStartsWith "227 yes (1,2,3,4,5,6) x" "227" ∧
      matchParen "227 ok (1,2,3,4,5,6)".data = matchParen "227 yes (1,2,3,4,5,6) x".data) ∧
    openDataConnection "227 ok (1,2,3,4,5,6)" =
      openDataConnection "227 yes (1,2,3,4,5,6) x" :=
  ⟨by decide, pasv_outcome_from_chunk_head_and_first_group _ _ (by decide) (by decide)⟩

/-- Counterexample for C7: a `227` reply whose parenthesized group holds
only five integers does not match the six-integer pattern, yet the
source does not fail with an error: it invokes the success callback with
ip `1.2.3.4` and a `NaN` port (modelled `none`), and the caller then
attempts a data socket connection to that endpoint. -/
theorem pasv_five_integers_counterexample :
    openDataConnection "227 Entering Passive Mode (1,2,3,4,5)" =
      PasvResult.ok "1.2.3.4" none ∧
    downloadOnPasv (PasvResult.ok "1.2.3.4" none) =
      [Act.connectData "1.2.3.4" none] := by decide

/-- Amended C7: a PASV reply that does not start with `227` makes
`openDataConnection` invoke the error callback with a single argument,
and destructuring `{ ip, port }` from the missing second argument throws
an uncaught `TypeError` -- negotiation fails without opening a data
socket, but with a crash, not a reported protocol error, and the
`if (error)` branch of the caller never runs; a `227` reply without any
parenthesized group likewise ends in an uncaught `TypeError`; and a
`227` reply whose first parenthesized group has fewer than six fields is
accepted: the success callback runs (missing fields give a `NaN` port)
and a data connection is attempted. -/
theorem pasv_failure_modes :
    (∀ r : String, jsStartsWith r "227" = false → openDataConnection r = PasvResult.errPassive) ∧
    downloadOnPasv PasvResult.errPassive = [Act.throwTypeError] ∧
    (∀ r : String, jsStartsWith r "227" = true → matchParen r.data = none →
      openDataConnection r = PasvResult.jsTypeError) ∧
    downloadOnPasv PasvResult.jsTypeError = [Act.throwTypeError] ∧
    openDataConnection "227 Entering Passive Mode (1,2,3,4,5)" =
      PasvResult.ok "1.2.3.4" none ∧
    downloadOnPasv (PasvResult.ok "1.2.3.4" none) = [Act.connectData "1.2.3.4" none] := by
  refine ⟨?_, by decide, ?_, by decide, by decide, by decide⟩
  · intro r hr
    unfold openDataConnection
    rw [hr]
    simp
  · intro r hr hm
    unfold openDataConnection
    rw [hr, hm]
    simp

/-- Witness for the amended C7: a `500` reply produces the single-
argument error invocation, whose delivery ends in the uncaught
`TypeError`, not in any logged error or control close. -/
theorem pasv_failure_modes_witness :
    jsStartsWith "500 not today" "227" = false ∧
    openDataConnection "500 not today" = PasvResult.errPassive ∧
    downloadOnPasv PasvResult.errPassive = [Act.throwTypeError] :=
  ⟨by decide, pasv_failure_modes.1 "500 not today" (by decide), pasv_failure_modes.2.1⟩

/-- Counterexample for C8: after the greeting and `USER`, a reply with
code `500` -- neither `331` nor `230` nor `530` -- is silently ignored:
the callback is never invoked, so no `AuthError` is reported (and no
success either); the login simply hangs.  The final state shows `USER`
written, no `PASS`, and an empty callback list. -/
theorem login_other_code_counterexample :
    loginToFtp "user" "pw" ["220 service ready", "500 unknown command"] =
      ⟨2, ["USER user\r\n"], []⟩ := by decide

/-- Amended C8: the first control chunk triggers `USER` whatever its
code; afterwards a chunk starting with `331` triggers `PASS`, one
starting with `230` invokes the callback with `null` (success), one
starting with `530` invokes it with the authentication `Error`, and a
chunk with any other code only bumps the response counter: no command is
written and no callback is invoked, so such a reply neither succeeds nor
fails the login. -/
theorem login_step_behavior :
    (∀ u p (st : LoginState) c, st.responseCount = 0 →
      loginToFtpStep u p st c =
        { st with responseCount := 1, writes := st.writes ++ ["USER " ++ u ++ "\r\n"] }) ∧
    (∀ u p (st : LoginState) c, st.responseCount ≠ 0 → jsStartsWith c "331" = true →
      loginToFtpStep u p st c =
        { st with responseCount := st.responseCount + 1,
                  writes := st.writes ++ ["PASS " ++ p ++ "\r\n"] }) ∧
    (∀ u p (st : LoginState) c, st.responseCount ≠ 0 → jsStartsWith c "331" = false →
      jsStartsWith c "230" = true →
      loginToFtpStep u p st c =
        { st with responseCount := st.responseCount + 1, cbs := st.cbs ++ [none] }) ∧
    (∀ u p (st : LoginState) c, st.responseCount ≠ 0 → jsStartsWith c "331" = false →
      jsStartsWith c "230" = false → jsStartsWith c "530" = true →
      loginToFtpStep u p st c =
        { st with responseCount := st.responseCount + 1,
                  cbs := st.cbs ++ [some "Login authentication failed"] }) ∧
    (∀ u p (st : LoginState) c, st.responseCount ≠ 0 → jsStartsWith c "331" = false →
      jsStartsWith c "230" = false → jsStartsWith c "530" = false →
      loginToFtpStep u p st c = { st with responseCount := st.responseCount + 1 }) := by
  refine ⟨?_, ?_, ?_, ?_, ?_⟩
  · intro u p st c h
    simp [loginToFtpStep, h]
  · intro u p st c h h331
    rw [loginToFtpStep]
    rw [if_neg (by omega), if_pos h331]
  · intro u p st c h h331 h230
    rw [loginToFtpStep]
    rw [if_neg (by omega), if_neg (by simp [h331]), if_pos h230]
  · intro u p st c h h331 h230 h530
    rw [loginToFtpStep]
    rw [if_neg (by omega), if_neg (by simp [h331]), if_neg (by simp [h230]),
      if_pos h530]
  · intro u p st c h h331 h230 h530
    rw [loginToFtpStep]
    rw [if_neg (by omega), if_neg (by simp [h331]), if_neg (by simp [h230]),
      if_neg (by simp [h530])]

/-- Witness for the amended C8: a `500` chunk after the greeting leaves
writes and callbacks untouched. -/
theorem login_step_behavior_witness :
    ((⟨1, [], []⟩ : LoginState).responseCount ≠ 0 ∧
      jsStartsWith "500 oops" "331" = false ∧ jsStartsWith "500 oops" "230" = false ∧
      jsStartsWith "500 oops" "530" = false) ∧
    loginToFtpStep "u" "p" ⟨1, [], []⟩ "500 oops" = ⟨2, [], []⟩ :=
  ⟨by decide,
    (login_step_behavior.2.2.2.2 "u" "p" ⟨1, [], []⟩ "500 oops"
      (by decide) (by decide) (by decide) (by decide)).trans rfl⟩

/-- Counterexample for C3: a download whose control channel never
delivers a `226` (the only control chunk is the preliminary `150`) still
reports success -- the data-socket `end` event alone triggers the
completion log, stream close and success callback.  The final control
reply is never read at all. -/
theorem download_success_without_226_counterexample :
    (runM (downloadFileFromFtpStep "ftp://h/a.txt" cbRecord) downloadInit
      [Ev.dataConnected, Ev.ctrl "150 ok", Ev.dataChunk "payload", Ev.dataEnd]).2 =
    [Act.logMsg "Data connection established for RETR command",
     Act.ctrlWrite "RETR /a.txt\r\n",
     Act.logMsg "RETR Response: 150 ok",
     Act.fsWriteAct "payload",
     Act.logMsg "File download completed.", Act.fsEndAct, Act.ctrlEnd,
     Act.cb (JsValue.jsStr "ftp://h/a.txt")] := by decide

/-- Amended C3: every data-carrying operation reports success on a
data-side event, not on any control reply: the download callback fires
only on data-socket `EOF`, the upload callback only on the pipe `finish`
event, and the listing is emitted only on data-socket `EOF`; once the
single `once` control handler has been consumed (by the preliminary
reply), every further control chunk -- including a final `226` or an
error code -- is ignored, and `handleLsCommand` reads no control reply
at all. -/
theorem success_reported_on_data_eof
    (u lp d url s : String) (st : DownloadState) (st2 : UploadState) (st3 : LsState)
    (e : Ev) :
    (Act.cb (JsValue.jsStr u) ∈ (downloadFileFromFtpStep u cbRecord st e).2 →
      e = Ev.dataEnd) ∧
    (st.onceUsed = true → (downloadFileFromFtpStep u cbRecord st (Ev.ctrl s)).2 = []) ∧
    (Act.cb (JsValue.jsStr lp) ∈ (uploadFileToFtpStep lp d cbRecord st2 e).2 →
      e = Ev.pipeFinish) ∧
    (st2.onceUsed = true → (uploadFileToFtpStep lp d cbRecord st2 (Ev.ctrl s)).2 = []) ∧
    (Act.ctrlEnd ∈ (handleLsCommandStep url st3 e).2 → e = Ev.dataEnd) ∧
    (handleLsCommandStep url st3 (Ev.ctrl s)).2 = [] := by
  refine ⟨?_, ?_, ?_, ?_, ?_, ?_⟩
  · intro hmem
    cases e with
    | dataEnd => rfl
    | dataConnected =>
      exfalso
      by_cases h1 : st.connectFired <;> simp [downloadFileFromFtpStep, h1] at hmem
    | dataChunk s2 => simp [downloadFileFromFtpStep] at hmem
    | ctrl s2 =>
      exfalso
      by_cases h1 : st.onceUsed <;> by_cases h2 : jsStartsWith s2 "150" <;>
        simp [downloadFileFromFtpStep, h1, h2] at hmem
    | pipeFinish => simp [downloadFileFromFtpStep] at hmem
  · intro h1
    simp [downloadFileFromFtpStep, h1]
  · intro hmem
    cases e with
    | pipeFinish => rfl
    | dataConnected =>
      exfalso
      by_cases h1 : st2.connectFired <;> simp [uploadFileToFtpStep, h1] at hmem
    | dataChunk s2 => simp [uploadFileToFtpStep] at hmem
    | ctrl s2 =>
      exfalso
      by_cases h1 : st2.onceUsed <;> by_cases h2 : jsStartsWith s2 "150" <;>
        simp [uploadFileToFtpStep, h1, h2] at hmem
    | dataEnd => simp [uploadFileToFtpStep] at hmem
  · intro h1
    simp [uploadFileToFtpStep, h1]
  · intro hmem
    cases e with
    | dataEnd => rfl
    | dataConnected =>
      exfalso
      by_cases h1 : st3.connectFired <;> simp [handleLsCommandStep, h1] at hmem
    | dataChunk s2 => simp [handleLsCommandStep] at hmem
    | ctrl s2 => simp [handleLsCommandStep] at hmem
    | pipeFinish => simp [handleLsCommandStep] at hmem
  · simp [handleLsCommandStep]

/-- Witness for the amended C3: with the `once` handler consumed, even a
final `226` control chunk produces no action in a download. -/
theorem success_reported_on_data_eof_witness :
    ((⟨true, true⟩ : DownloadState).onceUsed = true) ∧
    (downloadFileFromFtpStep "ftp://h/a.txt" cbRecord ⟨true, true⟩
      (Ev.ctrl "226 Transfer complete")).2 = [] :=
  ⟨rfl,
    (success_reported_on_data_eof "ftp://h/a.txt" "a" "ftp://h" "u"
      "226 Transfer complete" ⟨true, true⟩ uploadInit lsInit Ev.dataEnd).2.1 rfl⟩

theorem download_step_ctrlWrite (u s : String) (st : DownloadState) (e : Ev)
    (hmem : Act.ctrlWrite s ∈ (downloadFileFromFtpStep u cbRecord st e).2) :
    e = Ev.dataConnected := by
  cases e with
  | dataConnected => rfl
  | dataChunk s2 => simp [downloadFileFromFtpStep] at hmem
  | dataEnd => simp [downloadFileFromFtpStep, cbRecord] at hmem
  | ctrl s2 =>
    exfalso
    by_cases h1 : st.onceUsed <;> by_cases h2 : jsStartsWith s2 "150" <;>
      simp [downloadFileFromFtpStep, h1, h2] at hmem
  | pipeFinish => simp [downloadFileFromFtpStep] at hmem

theorem upload_step_ctrlWrite (lp d s : String) (st : UploadState) (e : Ev)
    (hmem : Act.ctrlWrite s ∈ (uploadFileToFtpStep lp d cbRecord st e).2) :
    e = Ev.dataConnected := by
  cases e with
  | dataConnected => rfl
  | dataChunk s2 => simp [uploadFileToFtpStep] at hmem
  | dataEnd => simp [uploadFileToFtpStep] at hmem
  | ctrl s2 =>
    exfalso
    by_cases h1 : st.onceUsed <;> by_cases h2 : jsStartsWith s2 "150" <;>
      simp [uploadFileToFtpStep, h1, h2] at hmem
  | pipeFinish =>
    exfalso
    by_cases h1 : st.piping <;> simp [uploadFileToFtpStep, cbRecord, h1] at hmem

theorem ls_step_ctrlWrite (url s : String) (st : LsState) (e : Ev)
    (hmem : Act.ctrlWrite s ∈ (handleLsCommandStep url st e).2) :
    e = Ev.dataConnected := by
  cases e with
  | dataConnected => rfl
  | dataChunk s2 => simp [handleLsCommandStep] at hmem
  | dataEnd => simp [handleLsCommandStep] at hmem
  | ctrl s2 => simp [handleLsCommandStep] at hmem
  | pipeFinish => simp [handleLsCommandStep] at hmem

theorem runM_ctrlWrite_needs_event {σ : Type} (step : σ → Ev → σ × List Act) (a : Act)
    (h : ∀ st e, a ∈ (step st e).2 → e = Ev.dataConnected) :
    ∀ (st : σ) (evs : List Ev), a ∈ (runM step st evs).2 → Ev.dataConnected ∈ evs := by
  intro st evs
  induction evs generalizing st with
  | nil =>
    intro hmem
    simp [runM] at hmem
  | cons e rest ih =>
    intro hmem
    simp only [runM] at hmem
    rcases List.mem_append.1 hmem with h1 | h1
    · exact (h st e h1) ▸ List.mem_cons_self _ _
    · exact List.mem_cons_of_mem _ (ih _ h1)

/-- Claim C4: in every run of the three data-carrying operations over an
arbitrary event sequence, a command is written to the control channel at
the transfer stage only if the data socket connect callback has fired --
concretely, the `LIST`/`RETR`/`STOR` trigger is written inside that
callback and nowhere else, so the triggering command is never sent
before the data connection is established. -/
theorem trigger_sent_only_after_data_connect
    (u lp d url s : String) (evs : List Ev) :
    (Act.ctrlWrite s ∈ (runM (downloadFileFromFtpStep u cbRecord) downloadInit evs).2 →
      Ev.dataConnected ∈ evs) ∧
    (Act.ctrlWrite s ∈ (runM (uploadFileToFtpStep lp d cbRecord) uploadInit evs).2 →
      Ev.dataConnected ∈ evs) ∧
    (Act.ctrlWrite s ∈ (runM (handleLsCommandStep url) lsInit evs).2 →
      Ev.dataConnected ∈ evs) :=
  ⟨runM_ctrlWrite_needs_event _ _ (fun st e => download_step_ctrlWrite u s st e) _ evs,
   runM_ctrlWrite_needs_event _ _ (fun st e => upload_step_ctrlWrite lp d s st e) _ evs,
   runM_ctrlWrite_needs_event _ _ (fun st e => ls_step_ctrlWrite url s st e) _ evs⟩

/-- Witness for C4: in a run consisting of the connect event alone, the
`RETR` trigger is written, and the event list indeed contains the
connect event. -/
theorem trigger_sent_only_after_data_connect_witness :
    Act.ctrlWrite "RETR /a.txt\r\n" ∈
      (runM (downloadFileFromFtpStep "ftp://h/a.txt" cbRecord) downloadInit
        [Ev.dataConnected]).2 ∧
    Ev.dataConnected ∈ [Ev.dataConnected] :=
  ⟨by decide,
    (trigger_sent_only_after_data_connect "ftp://h/a.txt" "a" "ftp://h" "u"
      "RETR /a.txt\r\n" [Ev.dataConnected]).1 (by decide)⟩

/-- Claim C1 (failing run): a local-to-remote move whose upload runs to
completion -- `150` then the pipe `finish` event -- never deletes the
local source.  `uploadFileToFtp` invokes the move callback with the
local path (a truthy string) as first argument, `handleMvCommand` takes
that to be an upload error, logs the failure and never calls
`fs.unlink`: the trace ends in the error log and contains no `fsUnlink`
action (and no `226` was ever read -- the upload pipe finishing alone
counted as completion). -/
theorem mv_local_remote_never_deletes_local :
    (handleMvCommandLocalRemote "a.txt" "ftp://h/a.txt"
      [Ev.dataConnected, Ev.ctrl "150 ok", Ev.pipeFinish]).2 =
    [Act.logMsg "Data connection established for STOR command",
     Act.ctrlWrite "STOR /a.txt\r\n",
     Act.logMsg "STOR Response: 150 ok",
     Act.pipeStart "a.txt",
     Act.logMsg "File upload completed.", Act.ctrlEnd,
     Act.logErr "Failed to upload the file:"] := by decide

/-- Claim C2 (failing run): a remote-to-local move whose download runs
to completion -- `150`, data bytes, data-socket `EOF` -- never deletes
the remote source.  `downloadFileFromFtp` invokes the move callback with
the remote URL (a truthy string) as first argument, `handleMvCommand`
takes that to be a download error, logs the failure and never invokes
`handleRmCommand`: the trace ends in the error log and contains no
`startRm` action, so no `DELE` is ever attempted and no
`DeleteAfterCopyError` can be reported. -/
theorem mv_remote_local_never_deletes_remote :
    (handleMvCommandRemoteLocal "ftp://h/a.txt" "a.txt"
      [Ev.dataConnected, Ev.ctrl "150 ok", Ev.dataChunk "bytes", Ev.dataEnd]).2 =
    [Act.logMsg "Data connection established for RETR command",
     Act.ctrlWrite "RETR /a.txt\r\n",
     Act.logMsg "RETR Response: 150 ok",
     Act.fsWriteAct "bytes",
     Act.logMsg "File download completed.", Act.fsEndAct, Act.ctrlEnd,
     Act.logErr "Failed to download the file:"] := by decide

/-- Claim C9: when both sides are local or both are remote (their
`isRemote` classifications coincide), `handleCpCommand` only logs the
unsupported-combination error: it dispatches to neither transfer helper,
and its action list contains nothing that opens a socket. -/
theorem cp_same_domain_rejected (source destination : String)
    (h : isRemote source = isRemote destination) :
    handleCpCommand source destination =
      [Act.logErr
        "Copy command currently supports only local-to-remote or remote-to-local copying."] ∧
    (handleCpCommand source destination).filter opensSocket = [] := by
  have hmain : handleCpCommand source destination =
      [Act.logErr
        "Copy command currently supports only local-to-remote or remote-to-local copying."] := by
    cases hs : isRemote source <;> cases hd : isRemote destination <;>
      first
        | (exfalso; rw [hs, hd] at h; exact Bool.noConfusion h)
        | simp [handleCpCommand, hs, hd]
  exact ⟨hmain, by rw [hmain]; decide⟩

/-- Witness for C9: the two scenarios of the specification, local pair
and remote pair, both only log the error. -/
theorem cp_same_domain_rejected_witness :
    (isRemote "/local/a" = isRemote "/local/b" ∧
      isRemote "ftp://h/a" = isRemote "ftp://h/b") ∧
    handleCpCommand "/local/a" "/local/b" =
      [Act.logErr
        "Copy command currently supports only local-to-remote or remote-to-local copying."] ∧
    handleCpCommand "ftp://h/a" "ftp://h/b" =
      [Act.logErr
        "Copy command currently supports only local-to-remote or remote-to-local copying."] :=
  ⟨by decide, (cp_same_domain_rejected _ _ (by decide)).1,
    (cp_same_domain_rejected _ _ (by decide)).1⟩

/-- Claim C10: on successful completion the download handler invokes its
callback with the remote URL as first argument and the upload handler
invokes its callback with the local path as first argument; that string
is not `null`, and it occupies exactly the position in which the error
paths place an `Error` value, as the `handleRmCommand` failure branch
shows. -/
theorem success_callback_first_argument
    (u lp d s : String) (cbAct : JsValue → List Act) (st : DownloadState)
    (st2 : UploadState) :
    ((downloadFileFromFtpStep u cbAct st Ev.dataEnd).2 =
      [Act.logMsg "File download completed.", Act.fsEndAct, Act.ctrlEnd] ++
        cbAct (JsValue.jsStr u)) ∧
    (st2.piping = true → (uploadFileToFtpStep lp d cbAct st2 Ev.pipeFinish).2 =
      [Act.logMsg "File upload completed.", Act.ctrlEnd] ++ cbAct (JsValue.jsStr lp)) ∧
    (JsValue.jsStr u ≠ JsValue.jsNull ∧ JsValue.jsStr lp ≠ JsValue.jsNull) ∧
    (jsStartsWith s "250" = false → (handleRmCommandStep cbAct false (Ev.ctrl s)).2 =
      ([Act.logErr "Failed to delete file:"] ++
        cbAct (JsValue.jsErr "Failed to delete file")) ++ [Act.ctrlEnd]) := by
  refine ⟨rfl, ?_, ⟨fun hx => JsValue.noConfusion hx, fun hx => JsValue.noConfusion hx⟩, ?_⟩
  · intro hp
    simp [uploadFileToFtpStep, hp]
  · intro h250
    simp [handleRmCommandStep, h250]

/-- Witness for C10: an upload in the piping state completes and hands
the local path to the callback. -/
theorem success_callback_first_argument_witness :
    ((⟨false, false, true⟩ : UploadState).piping = true) ∧
    (uploadFileToFtpStep "a.txt" "ftp://h/a.txt" cbRecord ⟨false, false, true⟩
      Ev.pipeFinish).2 =
      [Act.logMsg "File upload completed.", Act.ctrlEnd] ++ cbRecord (JsValue.jsStr "a.txt") :=
  ⟨rfl,
    (success_callback_first_argument "u" "a.txt" "ftp://h/a.txt" "s" cbRecord
      downloadInit ⟨false, false, true⟩).2.1 rfl⟩
